import Mathlib

set_option linter.unusedVariables false
set_option maxHeartbeats 1000000

/-!
# Verification of the TBBNB controller (src/TBBNB.ino)

Shallow embedding of the sleep/wake policy engine, time-reconciliation
logic, quiet-hours evaluator, admin key=value configuration applier and
the tag-scan handling of the main loop of `src/TBBNB.ino`, together with
theorems settling the frozen claims about this program.

Machine integers are embedded as `Nat`/`Int` with explicit wrapping where
a cast occurs in the source.  External effects (WiFi link, DNS, SNTP,
the PN532 and the OLED) are embedded as an explicit environment record
and an explicit peripheral-line state record; the many global variables
of the sketch are gathered into one `Device` record.
-/

namespace TBBNB

/-! ## Character and Arduino-`String` helpers

The sketch manipulates Arduino `String`s (`trim`, `toLowerCase`,
`toUpperCase`, `replace`, `indexOf`, `substring`, `toInt`).  These are
embedded over `List Char` with C/ASCII semantics. -/

/-- C `isspace`: space, tab, newline, vertical tab, form feed, carriage return. -/
def isSpaceChar (c : Char) : Bool :=
  c = ' ' || c = '\t' || c = '\n' || c = Char.ofNat 11 || c = Char.ofNat 12 || c = '\r'

/-- ASCII lower-casing of a string (Arduino `String::toLowerCase`). -/
def toLowerStr (s : String) : String := String.mk (s.data.map Char.toLower)

/-- ASCII upper-casing of a string (Arduino `String::toUpperCase`). -/
def toUpperStr (s : String) : String := String.mk (s.data.map Char.toUpper)

/-- Arduino `String::trim`: strip leading and trailing `isspace` characters. -/
def trimStr (s : String) : String :=
  String.mk (((s.data.dropWhile isSpaceChar).reverse.dropWhile isSpaceChar).reverse)

/-- Arduino `String::replace(pat, rep)` for a single-character pattern
(the sketch only ever replaces the one-character patterns `"\r"`, `";"`,
`","` and `" "`). -/
def replaceCharWith (s : String) (c : Char) (r : String) : String :=
  String.mk (s.data.foldr (fun ch acc => if ch = c then r.data ++ acc else ch :: acc) [])

/-- Split a character list at every occurrence of `c` (the segment-walking
loop of `applyConfigText`, which repeatedly takes `indexOf('\n')` /
`substring`). -/
def splitCharAux (c : Char) : List Char → List (List Char)
  | [] => [[]]
  | ch :: rest =>
    let r := splitCharAux c rest
    if ch = c then [] :: r
    else
      match r with
      | [] => [[ch]]
      | h :: t => (ch :: h) :: t

/-- Split a string on a separator character. -/
def splitOnChar (c : Char) (s : String) : List String :=
  (splitCharAux c s.data).map String.mk

/-- Split a character list at the FIRST occurrence of `c`
(`line.indexOf('=')` followed by the two `substring` calls); `none`
corresponds to `indexOf` returning `-1`. -/
def breakAtFirst (c : Char) : List Char → Option (List Char × List Char)
  | [] => none
  | ch :: rest =>
    if ch = c then some ([], rest)
    else (breakAtFirst c rest).map (fun p => (ch :: p.1, p.2))

/-- Digit accumulation for `atol`. -/
def digitsToNat (ds : List Char) : Nat :=
  ds.foldl (fun a c => a * 10 + (c.toNat - 48)) 0

/-- C `atol` (Arduino `String::toInt` and `strtoll` base 10): skip leading
whitespace, optional sign, then digits; `0` when no digits follow.
Embedded over unbounded `Int` (all values exercised are far inside the
machine range). -/
def atol (s : String) : Int :=
  let cs := s.data.dropWhile isSpaceChar
  let signAndRest : Bool × List Char :=
    match cs with
    | '-' :: r => (true, r)
    | '+' :: r => (false, r)
    | _ => (false, cs)
  let ds := signAndRest.2.takeWhile Char.isDigit
  if signAndRest.1 then -(digitsToNat ds : Int) else (digitsToNat ds : Int)

/-- Arduino `constrain(amt, low, high)`. -/
def constrain (x lo hi : Int) : Int :=
  if x < lo then lo else if x > hi then hi else x

/-- The C cast `(uint32_t)x`. -/
def toUInt32 (x : Int) : Nat := (x % (2 ^ 32 : Nat)).toNat

/-- `s.indexOf(c) >= 0`: the string holds the character. -/
def containsChar (s : String) (c : Char) : Bool := s.data.contains c

/-- One hex digit of `uidHexNoSep` (`H[(uid[i]>>4)&0xF]`, `H[uid[i]&0xF]`). -/
def hexDigit (n : Nat) : Char := "0123456789ABCDEF".data.getD n '0'

/-- `uidHexNoSep(uid, len)`: uppercase hex string of the first `len` bytes. -/
def uidHexNoSep (uid : List Nat) (len : Nat) : String :=
  String.mk ((uid.take len).foldr (fun b acc => hexDigit (b / 16 % 16) :: hexDigit (b % 16) :: acc) [])

/-! ## Calendar arithmetic (`mktime`)

`mktime` called on a `struct tm` is embedded as the proleptic-Gregorian
civil-to-epoch conversion (Howard Hinnant's `days_from_civil`), with
out-of-range months normalised the way `mktime` normalises them.  The
POSIX-TZ offset applied by `tzset` is environment state outside the
program text and no claim depends on it, so local civil time is converted
at offset zero; where the source only uses *differences* of `mktime`
results within one civil day (`microsUntilHour`) the offset cancels. -/

/-- Days from 1970-01-01 to civil date `y-m-d` (`m` in 1..12). -/
def daysFromCivil (y m d : Int) : Int :=
  let y' := if m ≤ 2 then y - 1 else y
  let era := (if 0 ≤ y' then y' else y' - 399) / 400
  let yoe := y' - era * 400
  let doy := (153 * (m + (if 2 < m then -3 else 9)) + 2) / 5 + d - 1
  let doe := yoe * 365 + yoe / 4 - yoe / 100 + doy
  era * 146097 + doe - 719468

/-- `struct tm` fields actually used by the sketch. -/
structure Tm where
  tm_year : Int   -- years since 1900
  tm_mon : Int    -- months since January, 0..11 before normalisation
  tm_mday : Int
  tm_hour : Int
  tm_min : Int
  tm_sec : Int
  deriving Repr, DecidableEq

/-- `mktime`: epoch seconds of a civil `struct tm` (months normalised). -/
def mktime (t : Tm) : Int :=
  let ym := (1900 + t.tm_year) * 12 + t.tm_mon
  let y := ym.ediv 12
  let mon := ym.emod 12
  86400 * (daysFromCivil y (mon + 1) t.tm_mday) + 3600 * t.tm_hour + 60 * t.tm_min + t.tm_sec

/-! ## Data model: the sketch's global state -/

/-- Outcome of the external network operations during one
`ensureTimeSync` call: whether the WiFi association completes within the
connect timeout, whether the DNS lookup of `pool.ntp.org` succeeds,
whether `getLocalTime` succeeds within the NTP wait window, and the value
`time(nullptr)` reads at that moment. -/
structure SyncEnv where
  wifiOk : Bool
  dnsOk : Bool
  ntpOk : Bool
  nowEpoch : Int
  deriving Repr, DecidableEq

/-- An environment in which a network time sync cannot complete: the
WiFi association, the DNS lookup or the NTP acquisition fails. -/
def syncFails (env : SyncEnv) : Prop :=
  env.wifiOk = false ∨ env.dnsOk = false ∨ env.ntpOk = false

instance (env : SyncEnv) : Decidable (syncFails env) := by
  unfold syncFails
  infer_instance

/-- A successful `getLocalTime` reading (only the time-of-day fields are
consumed by the quiet-hours and sleep-duration logic). -/
structure CivilTime where
  hour : Nat
  min : Nat
  sec : Nat
  deriving Repr, DecidableEq

/-- Seconds since local midnight of a civil time. -/
def secOfDay (t : CivilTime) : Nat := t.hour * 3600 + t.min * 60 + t.sec

/-- The key/value records written by `saveAll` into the `Preferences`
namespace `"tbbnb"`. -/
structure PrefsData where
  active_ms : Nat
  welcome_ms : Nat
  reject_ms : Nat
  marquee_ms : Nat
  code_delay : Nat
  code : String
  sleep_ms : Nat
  day_fallback_ms : Nat
  tz : String
  quiet_en : Bool
  q_start : Nat
  q_end : Nat
  uids : List String
  deriving Repr, DecidableEq

/-- The sketch's global mutable state: persisted settings, quiet-hours
window, clock validity, the RTC-slow-memory retained fields
(`gPlannedWakeEpoch`, `gLastSyncEpoch`), the system clock, and an
observably-counted record of WiFi bring-ups. -/
structure Device where
  SET_ACTIVE_MS : Nat
  SET_WELCOME_MS : Nat
  SET_REJECT_MS : Nat
  SET_MARQUEE_MS : Nat
  SET_CODE_DELAY_MS : Nat
  SET_SLEEP_MS : Nat
  SET_DAY_FALLBACK_MS : Nat
  UNLOCK_CODE : String
  QUIET_EN : Bool
  QUIET_START_H : Nat
  QUIET_END_H : Nat
  SET_TZ : String
  allowUids : List String
  timeValid : Bool
  clockEpoch : Int
  gPlannedWakeEpoch : Int
  gLastSyncEpoch : Int
  wifiAttempts : Nat
  prefs : Option PrefsData
  deriving Repr, DecidableEq

/-- The global initialisers of the sketch (state at a cold boot before
`loadAll`; the RTC-retained fields keep their previous value across deep
sleep but start at 0 on a true cold boot). -/
def defaultDevice : Device where
  SET_ACTIVE_MS := 120000
  SET_WELCOME_MS := 3000
  SET_REJECT_MS := 3000
  SET_MARQUEE_MS := 35
  SET_CODE_DELAY_MS := 1500
  SET_SLEEP_MS := 180000
  SET_DAY_FALLBACK_MS := 0
  UNLOCK_CODE := "3510"
  QUIET_EN := true
  QUIET_START_H := 22
  QUIET_END_H := 7
  SET_TZ := "EST5EDT,M3.2.0/2,M11.1.0/2"
  allowUids := []
  timeValid := false
  clockEpoch := 0
  gPlannedWakeEpoch := 0
  gLastSyncEpoch := 0
  wifiAttempts := 0
  prefs := none

/-! ## Clock source -/

/-- `setSystemTimeFromEpoch(epoch, tag)` (the guarded boot-fallback clock
setter): a non-positive epoch is rejected without effect; otherwise the
system clock is set and `timeValid` becomes true.  `tag` only feeds the
serial log. -/
def setSystemTimeFromEpoch (epoch : Int) (tag : String) (d : Device) : Device :=
  if epoch ≤ 0 then d
  else
    let _ := tag
    { d with clockEpoch := epoch, timeValid := true }

/-- `setClockFromEpoch(epoch)`: same guard, but reports success/failure. -/
def setClockFromEpoch (epoch : Int) (d : Device) : Bool × Device :=
  if epoch ≤ 0 then (false, d)
  else (true, { d with clockEpoch := epoch, timeValid := true })

/-- `sscanf(s, "%d-%d-%d %d:%d:%d", ...)` conversion of one `%d`: skip
whitespace, optional sign, at least one digit. -/
def scanInt (cs : List Char) : Option (Int × List Char) :=
  let cs := cs.dropWhile isSpaceChar
  let signAndRest : Bool × List Char :=
    match cs with
    | '-' :: r => (true, r)
    | '+' :: r => (false, r)
    | _ => (false, cs)
  let ds := signAndRest.2.takeWhile Char.isDigit
  if ds.isEmpty then none
  else
    let n : Int := digitsToNat ds
    some ((if signAndRest.1 then -n else n), signAndRest.2.dropWhile Char.isDigit)

/-- Match one literal character of an `sscanf` format. -/
def expectChar (c : Char) : List Char → Option (List Char)
  | [] => none
  | ch :: r => if ch = c then some r else none

/-- The time-of-day tail `%d:%d:%d` shared by both accepted formats
(the `" "` separator of the first format matches any run of whitespace,
which the `%d` directive already skips). -/
def scanHMS (cs : List Char) : Option (Int × Int × Int) := do
  let (h, cs) ← scanInt cs
  let cs ← expectChar ':' cs
  let (m, cs) ← scanInt cs
  let cs ← expectChar ':' cs
  let (s, _) ← scanInt cs
  pure (h, m, s)

/-- The two `sscanf` patterns of `setClockFromString`:
`"%d-%d-%d %d:%d:%d"` first, then `"%d-%d-%dT%d:%d:%d"`. -/
def parseCivilString (s : String) : Option (Int × Int × Int × Int × Int × Int) := do
  let cs := s.data
  let (y, cs) ← scanInt cs
  let cs ← expectChar '-' cs
  let (mo, cs) ← scanInt cs
  let cs ← expectChar '-' cs
  let (d, cs) ← scanInt cs
  match scanHMS cs with
  | some (h, mi, se) => pure (y, mo, d, h, mi, se)
  | none => do
    let cs ← expectChar 'T' cs
    let (h, mi, se) ← scanHMS cs
    pure (y, mo, d, h, mi, se)

/-- `setClockFromString(s)`: parse `"YYYY-MM-DD HH:MM:SS"` (or with a
`'T'` separator), convert through `mktime`, reject a non-positive epoch,
else set the clock. -/
def setClockFromString (s : String) (d : Device) : Bool × Device :=
  match parseCivilString s with
  | none => (false, d)
  | some (y, mo, dd, h, mi, se) =>
    let t : Tm := { tm_year := y - 1900, tm_mon := mo - 1, tm_mday := dd,
                    tm_hour := h, tm_min := mi, tm_sec := se }
    let epoch := mktime t
    if epoch ≤ 0 then (false, d) else setClockFromEpoch epoch d

/-- `ensureTimeSync(wifiMs, ntpMs, force, verbose)`.

Control flow of the source, in order: a non-forced call with quiet hours
disabled returns false immediately WITHOUT touching the network;
otherwise WiFi is brought up (counted in `wifiAttempts`); a connect
timeout or a DNS failure returns false leaving the clock state as it
was; otherwise `timeValid` is assigned `false` before the NTP wait loop,
and set back to true (recording `gLastSyncEpoch = time(nullptr)`) only
if `getLocalTime` succeeds within the window; the function returns the
final `timeValid`.  The WiFi link is torn down on every path that
brought it up. -/
def ensureTimeSync (env : SyncEnv) (wifiMs ntpMs : Nat) (force verbose : Bool)
    (d : Device) : Bool × Device :=
  if !force && !d.QUIET_EN then (false, d)
  else
    let _ := (wifiMs, ntpMs, verbose)
    let d := { d with wifiAttempts := d.wifiAttempts + 1 }
    if !env.wifiOk then (false, d)
    else if !env.dnsOk then (false, d)
    else if env.ntpOk then
      (true, { d with timeValid := true, clockEpoch := env.nowEpoch,
                      gLastSyncEpoch := env.nowEpoch })
    else
      (false, { d with timeValid := false })

/-- The serial `ntp` command: `Serial.println(ensureTimeSync()?"synced":"fail")`
with the declaration's default arguments `(10000, 10000, force=false,
verbose=true)`. -/
def ntpCommand (env : SyncEnv) (d : Device) : String × Device :=
  let r := ensureTimeSync env 10000 10000 false true d
  ((if r.1 then "synced" else "fail"), r.2)

/-! ## Quiet-hours evaluator -/

/-- `inQuietHours()`: false when disabled or when `getLocalTime` fails
(`lt = none`); otherwise the start/end ladder on the current hour. -/
def inQuietHours (d : Device) (lt : Option CivilTime) : Bool :=
  if !d.QUIET_EN then false
  else
    match lt with
    | none => false
    | some now =>
      let h := now.hour
      if d.QUIET_START_H = d.QUIET_END_H then true
      else if d.QUIET_START_H < d.QUIET_END_H then
        decide (d.QUIET_START_H ≤ h) && decide (h < d.QUIET_END_H)
      else
        decide (d.QUIET_START_H ≤ h) || decide (h < d.QUIET_END_H)

/-- `quietNow()`: `QUIET_EN && timeValid && inQuietHours()`. -/
def quietNow (d : Device) (lt : Option CivilTime) : Bool :=
  d.QUIET_EN && d.timeValid && inQuietHours d lt

/-- `microsUntilHour(H)`: 0 when `getLocalTime` fails; otherwise the
`mktime` difference between now and the next occurrence of hour `H`
(same civil day with minutes/seconds zeroed, bumped by 24h when not in
the future), in microseconds.  Within one civil day the `mktime`
difference is the difference of seconds-of-day. -/
def microsUntilHour (H : Nat) (lt : Option CivilTime) : Nat :=
  match lt with
  | none => 0
  | some now =>
    let tnow := secOfDay now
    let tnext0 := H * 3600
    let tnext := if tnext0 ≤ tnow then tnext0 + 24 * 3600 else tnext0
    (tnext - tnow) * 1000000

/-! ## Sleep policy engine -/

/-- The externally observable peripheral/wake-source lines manipulated by
the two deep-sleep entry procedures: OLED on/off, the PN532 RSTPDN level
(`nfcPowered` = held out of reset), the `gNfcUp` software flag, whether
autonomous polling was armed, the WiFi radio, the EXT0 wake source, the
RTC pull-up holding the IRQ line high, and the armed timer duration. -/
structure PeriphState where
  displayOn : Bool
  nfcPowered : Bool
  gNfcUp : Bool
  nfcAutoPoll : Bool
  wifiOn : Bool
  ext0Armed : Bool
  irqHeldHigh : Bool
  timerArmedUs : Option Nat
  deriving Repr, DecidableEq

/-- `pn532PowerDown()`: assert RSTPDN LOW (hold in reset). -/
def pn532PowerDown (ps : PeriphState) : PeriphState :=
  { ps with nfcPowered := false, gNfcUp := false }

/-- `pn532PowerUp()`: release RSTPDN HIGH. -/
def pn532PowerUp (ps : PeriphState) : PeriphState :=
  { ps with nfcPowered := true, gNfcUp := false }

/-- `displaySleep()` / `displayWake()`. -/
def displaySleep (ps : PeriphState) : PeriphState := { ps with displayOn := false }

def displayWake (ps : PeriphState) : PeriphState := { ps with displayOn := true }

/-- `disableAllWakesExceptTimer()`: disarm EXT0/EXT1/GPIO wake sources. -/
def disableAllWakesExceptTimer (ps : PeriphState) : PeriphState :=
  { ps with ext0Armed := false }

/-- The night-sleep duration/planned-wake computation of
`enterDeepSleep_NightTimer` (after its best-effort sync): with valid
time, microseconds to `QUIET_END_H` clamped below by one minute, and
`plannedWake = now + us/1e6`; without valid time, a fixed 30-minute nap
and `plannedWake = 0`. -/
def nightSleepPlan (timeValid : Bool) (nowEpoch : Int) (lt : Option CivilTime)
    (endH : Nat) : Nat × Int :=
  if timeValid then
    let toEnd0 := microsUntilHour endH lt
    let ONE_MIN := 60 * 1000000
    let toEnd := if toEnd0 < ONE_MIN then ONE_MIN else toEnd0
    (toEnd, nowEpoch + (toEnd / 1000000 : Nat))
  else
    (30 * 60 * 1000000, 0)

/-- The best-effort sync of `enterDeepSleep_NightTimer`:
`if (!timeValid) (void)ensureTimeSync(4000, 2500, true, true);`. -/
def nightSyncState (env : SyncEnv) (d : Device) : Device :=
  if !d.timeValid then (ensureTimeSync env 4000 2500 true true d).2 else d

/-- `enterDeepSleep_NightTimer()` up to the suspend call: OLED off, PN532
held in reset, radio off, non-timer wake sources disarmed, IRQ line held
high, one forced short-timeout sync attempt if time is not yet valid,
then the duration/planned-wake computation and the timer arm. -/
def enterDeepSleep_NightTimer (env : SyncEnv) (lt : Option CivilTime)
    (d : Device) (ps : PeriphState) : Device × PeriphState :=
  let ps := displaySleep ps
  let ps := pn532PowerDown ps
  let ps := { ps with wifiOn := false }
  let ps := disableAllWakesExceptTimer ps
  let ps := { ps with irqHeldHigh := true }
  let d := nightSyncState env d
  let nowEpoch := d.clockEpoch
  let plan := nightSleepPlan d.timeValid nowEpoch lt d.QUIET_END_H
  let d := { d with gPlannedWakeEpoch := plan.2 }
  let ps := { ps with timerArmedUs := some plan.1 }
  (d, ps)

/-- `enterDeepSleep_DayIRQ()` up to the suspend call: OLED off, PN532
powered UP and commanded into autonomous poll (`autoOk` is the
environment's answer to `pn532StartAutoPoll106A`), EXT0 armed on the IRQ
line (GPIO33 is RTC-capable on this board), the optional fallback timer
armed only when `SET_DAY_FALLBACK_MS > 0`, radio off. -/
def enterDeepSleep_DayIRQ (autoOk : Bool) (d : Device) (ps : PeriphState) : PeriphState :=
  let ps := displaySleep ps
  let ps := pn532PowerUp ps
  let ps := { ps with nfcAutoPoll := autoOk }
  let ps := { ps with ext0Armed := true }
  let ps :=
    if d.SET_DAY_FALLBACK_MS > 0 then
      { ps with timerArmedUs := some (d.SET_DAY_FALLBACK_MS * 1000) }
    else ps
  { ps with wifiOn := false }

/-! ## Boot reconciliation (the time policy of `setup`) -/

/-- `esp_sleep_get_wakeup_cause()`, restricted to the two causes the
sketch distinguishes. -/
inductive WakeCause where
  | cold
  | timer
  deriving Repr, DecidableEq

/-- `setup`, first sync: `if (QUIET_EN) ensureTimeSync(6000,6000);`
(defaults `force=false, verbose=true`). -/
def bootSync1 (envA : SyncEnv) (d0 : Device) : Device :=
  if d0.QUIET_EN then (ensureTimeSync envA 6000 6000 false true d0).2 else d0

/-- `setup`, forced boot sync:
`bool synced = ensureTimeSync(10000, 10000, true, true);`. -/
def bootSync2 (envA envB : SyncEnv) (d0 : Device) : Bool × Device :=
  ensureTimeSync envB 10000 10000 true true (bootSync1 envA d0)

/-- First fallback rung: on sync failure after a timer wake with a known
planned wake epoch, set the clock from `gPlannedWakeEpoch`. -/
def bootRung1 (envA envB : SyncEnv) (cause : WakeCause) (d0 : Device) : Device :=
  let r := bootSync2 envA envB d0
  if !r.1 && cause = WakeCause.timer && r.2.gPlannedWakeEpoch > 0 then
    setSystemTimeFromEpoch r.2.gPlannedWakeEpoch "planned-wake" r.2
  else r.2

/-- Second fallback rung and the complete boot time policy: if the clock
is still invalid and a previous successful sync left
`gLastSyncEpoch > 0`, set the clock from that stale value. -/
def bootTimePolicy (envA envB : SyncEnv) (cause : WakeCause) (d0 : Device) : Device :=
  let d3 := bootRung1 envA envB cause d0
  if !d3.timeValid && d3.gLastSyncEpoch > 0 then
    setSystemTimeFromEpoch d3.gLastSyncEpoch "last-sync-epoch" d3
  else d3

/-! ## Allowlist -/

/-- `MAX_UIDS`. -/
def MAX_UIDS : Nat := 16

/-- `ALLOW_WHEN_EMPTY`. -/
def ALLOW_WHEN_EMPTY : Bool := true

/-- UID normalisation used throughout: strip spaces, upper-case. -/
def normUid (h : String) : String := toUpperStr (replaceCharWith h ' ' "")

/-- `inAllowlist(h)`. -/
def inAllowlist (h : String) (allow : List String) : Bool :=
  allow.contains (normUid h)

/-- `addAllow(hex)`: reject when full, succeed silently on duplicates,
else append. -/
def addAllow (hex : String) (allow : List String) : Bool × List String :=
  if allow.length ≥ MAX_UIDS then (false, allow)
  else
    let h := normUid hex
    if inAllowlist h allow then (true, allow)
    else (true, allow ++ [h])

/-- `removeAllow(hex)`: erase the first occurrence, report whether found. -/
def removeAllow (hex : String) (allow : List String) : Bool × List String :=
  let h := normUid hex
  if allow.contains h then (true, allow.erase h) else (false, allow)

/-! ## Admin key=value configuration (`applyKV`, `applyConfigText`) -/

/-- `struct AdminResult`. -/
structure AdminResult where
  ok : Bool
  msg : String
  deriving Repr, DecidableEq

/-- `struct NdefResult`. -/
structure NdefResult where
  ok : Bool
  isText : Bool
  isUri : Bool
  text : String
  deriving Repr, DecidableEq

/-- The keys `applyKV` recognises, in source order. -/
def knownKeys : List String :=
  ["active_ms", "welcome_ms", "reject_ms", "marquee_ms", "code_delay_ms",
   "code", "quiet", "qstart", "qend", "add", "remove", "clear",
   "sleep_ms", "day_fallback_ms", "datetime", "epoch", "tz"]

/-- `applyKV(k, v, ar)`: lower-case the key, trim the value, then the
branch ladder of the source.  Each numeric setter clamps/floors exactly
as the source does; `qstart`/`qend` CLAMP out-of-range values into 0..23
and report success; `code` of a length other than 4, unknown keys,
failed adds/removes/clock parses set `ar.ok = false` with a per-key
message; every branch overwrites `ar.msg`. -/
def applyKV (k0 v0 : String) (d : Device) (ar : AdminResult) : Device × AdminResult :=
  let k := toLowerStr k0
  let v := trimStr v0
  if k = "active_ms" then
    ({ d with SET_ACTIVE_MS := toUInt32 (max 10000 (atol v)) }, { ar with msg := "active_ms" })
  else if k = "welcome_ms" then
    ({ d with SET_WELCOME_MS := toUInt32 (max 200 (atol v)) }, { ar with msg := "welcome_ms" })
  else if k = "reject_ms" then
    ({ d with SET_REJECT_MS := toUInt32 (max 200 (atol v)) }, { ar with msg := "reject_ms" })
  else if k = "marquee_ms" then
    let x := atol v
    let x := if x < 10 then 10 else if x > 65535 then 65535 else x
    ({ d with SET_MARQUEE_MS := x.toNat }, { ar with msg := "marquee_ms" })
  else if k = "code_delay_ms" then
    let x := atol v
    let x := if x < 0 then 0 else x
    ({ d with SET_CODE_DELAY_MS := toUInt32 x }, { ar with msg := "code_delay_ms" })
  else if k = "code" then
    if v.length = 4 then ({ d with UNLOCK_CODE := v }, { ar with msg := "code" })
    else (d, { ar with ok := false, msg := "code len" })
  else if k = "quiet" then
    let v := toLowerStr v
    let en := v = "1" || v = "on" || v = "true"
    ({ d with QUIET_EN := en }, { ar with msg := if en then "quiet:on" else "quiet:off" })
  else if k = "qstart" then
    ({ d with QUIET_START_H := (constrain (atol v) 0 23).toNat }, { ar with msg := "qstart" })
  else if k = "qend" then
    ({ d with QUIET_END_H := (constrain (atol v) 0 23).toNat }, { ar with msg := "qend" })
  else if k = "add" then
    let r := addAllow v d.allowUids
    if r.1 then ({ d with allowUids := r.2 }, { ar with msg := "add ok" })
    else ({ d with allowUids := r.2 }, { ar with ok := false, msg := "add fail" })
  else if k = "remove" then
    let r := removeAllow v d.allowUids
    if r.1 then ({ d with allowUids := r.2 }, { ar with msg := "remove ok" })
    else ({ d with allowUids := r.2 }, { ar with ok := false, msg := "remove nf" })
  else if k = "clear" then
    if v = "1" || v = "true" then ({ d with allowUids := [] }, { ar with msg := "cleared" })
    else (d, { ar with ok := false, msg := "clear?" })
  else if k = "sleep_ms" then
    let x := atol v
    let x := if x < 30000 then 30000 else x
    ({ d with SET_SLEEP_MS := toUInt32 x }, { ar with msg := "sleep_ms" })
  else if k = "day_fallback_ms" then
    let x := atol v
    let x := if x < 0 then 0 else x
    ({ d with SET_DAY_FALLBACK_MS := toUInt32 x }, { ar with msg := "day_fallback_ms" })
  else if k = "datetime" then
    let r := setClockFromString v d
    if r.1 then (r.2, { ar with msg := "datetime" })
    else (r.2, { ar with ok := false, msg := "datetime parse" })
  else if k = "epoch" then
    let e := atol v
    let r := setClockFromEpoch e d
    if r.1 then (r.2, { ar with msg := "epoch" })
    else (r.2, { ar with ok := false, msg := "epoch bad" })
  else if k = "tz" then
    if v.length > 2 then ({ d with SET_TZ := v }, { ar with msg := "tz" })
    else (d, { ar with ok := false, msg := "tz invalid" })
  else
    (d, { ar with ok := false, msg := "unk key: " ++ k })

/-- The snapshot `saveAll()` writes into `Preferences`. -/
def prefsSnapshot (d : Device) : PrefsData where
  active_ms := d.SET_ACTIVE_MS
  welcome_ms := d.SET_WELCOME_MS
  reject_ms := d.SET_REJECT_MS
  marquee_ms := d.SET_MARQUEE_MS
  code_delay := d.SET_CODE_DELAY_MS
  code := d.UNLOCK_CODE
  sleep_ms := d.SET_SLEEP_MS
  day_fallback_ms := d.SET_DAY_FALLBACK_MS
  tz := d.SET_TZ
  quiet_en := d.QUIET_EN
  q_start := d.QUIET_START_H
  q_end := d.QUIET_END_H
  uids := d.allowUids

/-- `saveAll()`. -/
def saveAll (d : Device) : Device := { d with prefs := some (prefsSnapshot d) }

/-- One iteration of the segment loop of `applyConfigText`: trim the
line, skip it when empty, report `"no '='"` (continuing) when it has no
`'='`, else split at the first `'='`, trim both halves and apply. -/
def processLine (acc : Device × AdminResult) (line : String) : Device × AdminResult :=
  let line := trimStr line
  if line.length = 0 then acc
  else
    match breakAtFirst '=' line.data with
    | none => (acc.1, { acc.2 with ok := false, msg := "no '='" })
    | some (kcs, vcs) =>
      applyKV (trimStr (String.mk kcs)) (trimStr (String.mk vcs)) acc.1 acc.2

/-- The segment loop of `applyConfigText` over all lines. -/
def processLines (lines : List String) (d : Device) (ar : AdminResult) : Device × AdminResult :=
  lines.foldl processLine (d, ar)

/-- `applyConfigText(txt)`: start from `{ok := true, msg := "saved"}`,
normalise `\r`/`;`/`,` to newlines, run every line through
`applyKV`, and persist ONCE at the end with `saveAll`. -/
def applyConfigText (txt : String) (d : Device) : Device × AdminResult :=
  let ar0 : AdminResult := { ok := true, msg := "saved" }
  let txt := replaceCharWith txt '\r' ""
  let txt := replaceCharWith txt ';' "\n"
  let txt := replaceCharWith txt ',' "\n"
  let r := processLines (splitOnChar '\n' txt) d ar0
  (saveAll r.1, r.2)

/-! ## Interaction mode machine (the tag-scan handling of `loop`) -/

/-- `enum Mode`. -/
inductive Mode where
  | MODE_SLEEP
  | MODE_SIGN
  | MODE_WELCOME
  | MODE_CODE
  | MODE_POOP
  deriving Repr, DecidableEq

/-- The mode-machine globals updated by the scan-handling block. -/
structure LoopState where
  mode : Mode
  lastScanMs : Nat
  modeUntilMs : Nat
  codeShowAtMs : Nat
  recognizedLast : Bool
  lastUidHex : String
  lastUidLen : Nat
  lastWasRecognized : Bool
  lastGrantedHex : String
  deriving Repr, DecidableEq

/-- The body of `loop`'s `if (nfc.readPassiveTargetID(...))` block: track
the last tag, then either the admin short-circuit (an NDEF TEXT payload
containing `'='` runs `applyConfigText` and transient feedback, leaving
`mode` alone) or normal recognition handling (allowlist check for UIDs
of length at least 4, entering `MODE_WELCOME` with the code-reveal
schedule, or `MODE_POOP` for rejects and short UIDs). -/
def tagScanHandle (nowMs : Nat) (uid : List Nat) (len : Nat) (nr : NdefResult)
    (d : Device) (ls : LoopState) : Device × LoopState :=
  let ls := { ls with lastScanMs := nowMs, lastUidLen := len,
                      lastUidHex := if len ≠ 0 then uidHexNoSep uid len else "" }
  if nr.ok && nr.isText && containsChar nr.text '=' then
    let r := applyConfigText nr.text d
    (r.1, ls)
  else
    if len ≥ 4 then
      let hex := uidHexNoSep uid len
      let rcg := if d.allowUids.length > 0 then inAllowlist hex d.allowUids
                 else ALLOW_WHEN_EMPTY
      let ls := { ls with recognizedLast := rcg, lastWasRecognized := rcg }
      if rcg then
        (d, { ls with lastGrantedHex := hex,
                      mode := Mode.MODE_WELCOME,
                      modeUntilMs := nowMs + d.SET_WELCOME_MS,
                      codeShowAtMs := nowMs + d.SET_WELCOME_MS + d.SET_CODE_DELAY_MS })
      else
        (d, { ls with mode := Mode.MODE_POOP, modeUntilMs := nowMs + d.SET_REJECT_MS })
    else
      (d, { ls with recognizedLast := false,
                    mode := Mode.MODE_POOP, modeUntilMs := nowMs + d.SET_REJECT_MS })

/-! ## Helper lemmas -/

/-- A sync attempt in a failing environment reports failure, cannot make
an invalid clock valid, and leaves the retained fields and the
quiet-hours configuration untouched. -/
lemma ensureTimeSync_of_syncFails (env : SyncEnv) (h : syncFails env)
    (wMs nMs : Nat) (force verbose : Bool) (d : Device) :
    (ensureTimeSync env wMs nMs force verbose d).1 = false ∧
    ((ensureTimeSync env wMs nMs force verbose d).2.timeValid = d.timeValid ∨
      (ensureTimeSync env wMs nMs force verbose d).2.timeValid = false) ∧
    (ensureTimeSync env wMs nMs force verbose d).2.gPlannedWakeEpoch = d.gPlannedWakeEpoch ∧
    (ensureTimeSync env wMs nMs force verbose d).2.gLastSyncEpoch = d.gLastSyncEpoch ∧
    (ensureTimeSync env wMs nMs force verbose d).2.QUIET_EN = d.QUIET_EN ∧
    (ensureTimeSync env wMs nMs force verbose d).2.QUIET_START_H = d.QUIET_START_H ∧
    (ensureTimeSync env wMs nMs force verbose d).2.QUIET_END_H = d.QUIET_END_H := by
  obtain h | h | h := h <;>
    · unfold ensureTimeSync
      split_ifs with h1 h2 h3 h4 <;> simp_all

/-- `ensureTimeSync` never changes the retained planned-wake epoch. -/
lemma ensureTimeSync_planned (env : SyncEnv) (wMs nMs : Nat) (force verbose : Bool)
    (d : Device) :
    (ensureTimeSync env wMs nMs force verbose d).2.gPlannedWakeEpoch = d.gPlannedWakeEpoch := by
  unfold ensureTimeSync
  split_ifs <;> rfl

/-- The planned wake of a valid-time night plan is now plus the sleep
duration in whole seconds. -/
lemma nightSleepPlan_valid_snd (e : Int) (lt : Option CivilTime) (H : Nat) :
    (nightSleepPlan true e lt H).2 = e + (((nightSleepPlan true e lt H).1 / 1000000 : Nat) : Int) := by
  unfold nightSleepPlan
  split_ifs <;> simp_all

/-! ## C3 — night-sleep duration computation -/

/-- C3, counterexample: with valid time exactly at `endHour` (07:00:00,
`endHour = 7`) the computed delay is a full 24 hours — `microsUntilHour`
wraps `tnext <= tnow` to the next day — not the one-minute floor the
claim states. -/
theorem night_delay_at_end_hour_cex :
    (nightSleepPlan true 0 (some ⟨7, 0, 0⟩) 7).1 = 86400000000 ∧
    (nightSleepPlan true 0 (some ⟨7, 0, 0⟩) 7).1 ≠ 60 * 1000000 := by
  decide

/-- C3, amended: with valid time at 23:10 and `endHour = 7` the computed
wake delay is exactly 7h50m; with current time exactly at `endHour` the
delay wraps to the next day's `endHour` (24 hours), not zero and not the
one-minute floor; and the computed delay never falls below the
one-minute floor on any input. -/
theorem night_sleep_duration :
    (nightSleepPlan true 0 (some ⟨23, 10, 0⟩) 7).1 = 28200000000 ∧
    (nightSleepPlan true 0 (some ⟨7, 0, 0⟩) 7).1 = 86400000000 ∧
    ∀ (tv : Bool) (e : Int) (lt : Option CivilTime) (H : Nat),
      60000000 ≤ (nightSleepPlan tv e lt H).1 := by
  refine ⟨by decide, by decide, ?_⟩
  intro tv e lt H
  unfold nightSleepPlan
  split_ifs with h
  · dsimp only
    split <;> omega
  · norm_num

/-! ## C4 — quiet-hour window classification -/

/-- C4: for every hour 0..23 and every window, `inQuietHours` (given a
successful clock read of that hour) is false when disabled, true on the
degenerate `start = end` window, the half-open interval test when
`start < end`, and the midnight-wrapping disjunction when `start > end`. -/
theorem quiet_hour_cases (d : Device) (h m s : Nat)
    (hh : h ≤ 23) (hs : d.QUIET_START_H ≤ 23) (he : d.QUIET_END_H ≤ 23) :
    (d.QUIET_EN = false → inQuietHours d (some ⟨h, m, s⟩) = false) ∧
    (d.QUIET_EN = true → d.QUIET_START_H = d.QUIET_END_H →
      inQuietHours d (some ⟨h, m, s⟩) = true) ∧
    (d.QUIET_EN = true → d.QUIET_START_H < d.QUIET_END_H →
      (inQuietHours d (some ⟨h, m, s⟩) = true ↔
        d.QUIET_START_H ≤ h ∧ h < d.QUIET_END_H)) ∧
    (d.QUIET_EN = true → d.QUIET_END_H < d.QUIET_START_H →
      (inQuietHours d (some ⟨h, m, s⟩) = true ↔
        d.QUIET_START_H ≤ h ∨ h < d.QUIET_END_H)) := by
  refine ⟨fun hen => by simp [inQuietHours, hen], fun hen heq => ?_, fun hen hlt => ?_, fun hen hgt => ?_⟩
  · simp [inQuietHours, hen, heq]
  · simp only [inQuietHours, hen]
    split_ifs <;> simp_all <;> omega
  · simp only [inQuietHours, hen]
    split_ifs <;> simp_all <;> omega

/-- C4 witness: concrete instances of each case at the default window
(22 → 7) and variants. -/
theorem quiet_hour_cases_witness :
    (inQuietHours { defaultDevice with QUIET_EN := false } (some ⟨23, 0, 0⟩) = false) ∧
    (inQuietHours { defaultDevice with QUIET_START_H := 9, QUIET_END_H := 9 } (some ⟨15, 0, 0⟩) = true) ∧
    (inQuietHours { defaultDevice with QUIET_START_H := 9, QUIET_END_H := 17 } (some ⟨12, 0, 0⟩) = true ↔
      (9 ≤ 12 ∧ 12 < 17)) ∧
    (inQuietHours defaultDevice (some ⟨3, 0, 0⟩) = true ↔ (22 ≤ 3 ∨ 3 < 7)) := by
  refine ⟨?_, ?_, ?_, ?_⟩
  · exact (quiet_hour_cases { defaultDevice with QUIET_EN := false } 23 0 0
      (by decide) (by decide) (by decide)).1 rfl
  · exact (quiet_hour_cases { defaultDevice with QUIET_START_H := 9, QUIET_END_H := 9 } 15 0 0
      (by decide) (by decide) (by decide)).2.1 rfl rfl
  · exact (quiet_hour_cases { defaultDevice with QUIET_START_H := 9, QUIET_END_H := 17 } 12 0 0
      (by decide) (by decide) (by decide)).2.2.1 rfl (by decide)
  · exact (quiet_hour_cases defaultDevice 3 0 0
      (by decide) (by decide) (by decide)).2.2.2 rfl (by decide)

/-! ## C5 — no quiet mode without a valid clock -/

/-- C5: whenever `timeValid` is false, `quietNow()` is false, whatever
the configured window and whatever the RTC reads. -/
theorem quiet_requires_valid_time (d : Device) (lt : Option CivilTime)
    (h : d.timeValid = false) : quietNow d lt = false := by
  simp [quietNow, h]

/-- C5 witness: a device inside its configured window (hour 23 of the
default 22 → 7 window) with an invalid clock is still not quiet. -/
theorem quiet_requires_valid_time_witness :
    quietNow defaultDevice (some ⟨23, 0, 0⟩) = false :=
  quiet_requires_valid_time defaultDevice (some ⟨23, 0, 0⟩) rfl

/-! ## C7 — which sleep variant powers the NFC peripheral down -/

/-- C7: the night-timer sleep entry asserts the PN532 reset line (powers
it down) before suspending, and the daytime IRQ-wake sleep entry leaves
the PN532 powered up at the moment of suspend, on every initial
peripheral state. -/
theorem night_only_powers_down_nfc (env : SyncEnv) (lt : Option CivilTime)
    (d : Device) (ps ps' : PeriphState) (autoOk : Bool) :
    (enterDeepSleep_NightTimer env lt d ps).2.nfcPowered = false ∧
    (enterDeepSleep_DayIRQ autoOk d ps').nfcPowered = true := by
  constructor
  · simp [enterDeepSleep_NightTimer, displaySleep, pn532PowerDown, disableAllWakesExceptTimer]
  · simp only [enterDeepSleep_DayIRQ, displaySleep, pn532PowerUp]
    split_ifs <;> rfl

/-! ## C10 — non-forced sync is skipped when quiet hours are disabled -/

/-- C10: with `force = false` and quiet hours disabled, `ensureTimeSync`
returns false immediately, leaving the device untouched (in particular
no WiFi bring-up is counted), and the serial `ntp` command therefore
prints `fail` without attempting a sync. -/
theorem ntp_skipped_when_quiet_disabled (env : SyncEnv) (wMs nMs : Nat)
    (verbose : Bool) (d : Device) (h : d.QUIET_EN = false) :
    ensureTimeSync env wMs nMs false verbose d = (false, d) ∧
    (ensureTimeSync env wMs nMs false verbose d).2.wifiAttempts = d.wifiAttempts ∧
    ntpCommand env d = ("fail", d) := by
  refine ⟨?_, ?_, ?_⟩ <;> simp [ensureTimeSync, ntpCommand, h]

/-- C10 witness: a reachable environment (everything would succeed) still
gets skipped on the default device with quiet hours turned off. -/
theorem ntp_skipped_when_quiet_disabled_witness :
    ensureTimeSync ⟨true, true, true, 1762894980⟩ 10000 10000 false true
        { defaultDevice with QUIET_EN := false }
      = (false, { defaultDevice with QUIET_EN := false }) ∧
    (ensureTimeSync ⟨true, true, true, 1762894980⟩ 10000 10000 false true
        { defaultDevice with QUIET_EN := false }).2.wifiAttempts
      = ({ defaultDevice with QUIET_EN := false } : Device).wifiAttempts ∧
    ntpCommand ⟨true, true, true, 1762894980⟩ { defaultDevice with QUIET_EN := false }
      = ("fail", { defaultDevice with QUIET_EN := false }) :=
  ntp_skipped_when_quiet_disabled ⟨true, true, true, 1762894980⟩ 10000 10000 true
    { defaultDevice with QUIET_EN := false } rfl

/-! ## C1 — clock-validity monotonicity across sync attempts -/

/-- C1, counterexample: a device whose clock was marked valid (e.g. via
`setepoch 1`, which sets `timeValid` without making `getLocalTime`
succeed) runs a forced `ensureTimeSync` in an environment where WiFi and
DNS succeed but the NTP wait times out: the call FAILS (returns false)
yet resets `timeValid` from true to false — the source assigns
`timeValid = false` before the NTP wait loop.  This refutes both "once
true it stays true for the boot session" and "on failure returns false
without altering prior validity". -/
theorem sync_timeout_resets_validity_cex :
    ({ defaultDevice with timeValid := true } : Device).timeValid = true ∧
    (ensureTimeSync ⟨true, true, false, 0⟩ 10000 10000 true true
        { defaultDevice with timeValid := true }).1 = false ∧
    (ensureTimeSync ⟨true, true, false, 0⟩ 10000 10000 true true
        { defaultDevice with timeValid := true }).2.timeValid = false :=
  ⟨rfl, rfl, rfl⟩

/-- C1, amended: validity transitions of the clock.  A sync attempt that
fails before reaching the NTP wait — skipped because quiet hours are
disabled and the call is not forced, WiFi connect failure, or DNS
failure — returns false and leaves the prior validity (indeed the whole
prior state, for the skip) unchanged; a sync attempt that connects but
times out in the NTP wait returns false and resets validity to FALSE
(the one non-monotone transition); a successful sync and the two direct
clock setters only ever turn validity on. -/
theorem timeValid_validity_transitions (env : SyncEnv) (wMs nMs : Nat)
    (force verbose : Bool) (d : Device) (e : Int) (tag : String) :
    ((!force && !d.QUIET_EN) = true →
      ensureTimeSync env wMs nMs force verbose d = (false, d)) ∧
    (env.wifiOk = false →
      (ensureTimeSync env wMs nMs force verbose d).1 = false ∧
      (ensureTimeSync env wMs nMs force verbose d).2.timeValid = d.timeValid) ∧
    (env.dnsOk = false →
      (ensureTimeSync env wMs nMs force verbose d).1 = false ∧
      (ensureTimeSync env wMs nMs force verbose d).2.timeValid = d.timeValid) ∧
    ((!force && !d.QUIET_EN) = false → env.wifiOk = true → env.dnsOk = true →
      env.ntpOk = false →
      (ensureTimeSync env wMs nMs force verbose d).1 = false ∧
      (ensureTimeSync env wMs nMs force verbose d).2.timeValid = false) ∧
    ((ensureTimeSync env wMs nMs force verbose d).1 = true →
      (ensureTimeSync env wMs nMs force verbose d).2.timeValid = true) ∧
    (d.timeValid = true → (setSystemTimeFromEpoch e tag d).timeValid = true) ∧
    (d.timeValid = true → (setClockFromEpoch e d).2.timeValid = true) := by
  refine ⟨fun h => ?_, fun h => ?_, fun h => ?_, fun h1 h2 h3 h4 => ?_, fun h => ?_,
    fun h => ?_, fun h => ?_⟩
  · simp [ensureTimeSync, h]
  · unfold ensureTimeSync
    split_ifs <;> simp_all
  · unfold ensureTimeSync
    split_ifs <;> simp_all
  · simp [ensureTimeSync, h1, h2, h3, h4]
  · unfold ensureTimeSync at h ⊢
    split_ifs at h ⊢ <;> simp_all
  · unfold setSystemTimeFromEpoch
    split_ifs <;> simp_all
  · unfold setClockFromEpoch
    split_ifs <;> simp_all

/-- C1 witness: the amended transitions at concrete inputs — the skip
path on the default (quiet-enabled → use force=false with quiet off),
the WiFi-failure path, the connected-but-timed-out path, and the setter
monotonicity at a positive epoch. -/
theorem timeValid_validity_transitions_witness :
    (ensureTimeSync ⟨true, true, true, 5⟩ 10000 10000 false true
        { defaultDevice with QUIET_EN := false }
      = (false, { defaultDevice with QUIET_EN := false })) ∧
    ((ensureTimeSync ⟨false, false, false, 0⟩ 10000 10000 true true
        { defaultDevice with timeValid := true }).1 = false ∧
      (ensureTimeSync ⟨false, false, false, 0⟩ 10000 10000 true true
        { defaultDevice with timeValid := true }).2.timeValid
        = ({ defaultDevice with timeValid := true } : Device).timeValid) ∧
    ((ensureTimeSync ⟨true, true, false, 0⟩ 10000 10000 true true
        { defaultDevice with timeValid := true }).1 = false ∧
      (ensureTimeSync ⟨true, true, false, 0⟩ 10000 10000 true true
        { defaultDevice with timeValid := true }).2.timeValid = false) ∧
    (setSystemTimeFromEpoch 1762894980 "planned-wake"
        { defaultDevice with timeValid := true }).timeValid = true :=
  ⟨(timeValid_validity_transitions ⟨true, true, true, 5⟩ 10000 10000 false true
      { defaultDevice with QUIET_EN := false } 0 "").1 rfl,
   (timeValid_validity_transitions ⟨false, false, false, 0⟩ 10000 10000 true true
      { defaultDevice with timeValid := true } 0 "").2.1 rfl,
   (timeValid_validity_transitions ⟨true, true, false, 0⟩ 10000 10000 true true
      { defaultDevice with timeValid := true } 0 "").2.2.2.1 rfl rfl rfl rfl,
   (timeValid_validity_transitions ⟨true, true, false, 0⟩ 10000 10000 true true
      { defaultDevice with timeValid := true } 1762894980 "planned-wake").2.2.2.2.2.1 rfl⟩

/-! ## C2 — boot-time fallback ladder -/

/-- C2: the boot fallback ladder is total.  (i) If the forced boot sync
reports failure, the wake cause was the timer and `gPlannedWakeEpoch` is
positive, the clock is set from `gPlannedWakeEpoch` and validity is true
(also after the second rung).  (ii) If after the first rung the clock is
still invalid and `gLastSyncEpoch` is positive, the clock is set from
`gLastSyncEpoch` and validity is true.  (iii) If, at a boot with the
fresh-boot invalid clock, all sources are absent — both sync attempts
fail and both retained epochs are 0 — validity stays false and
`quietNow()` is false for every RTC reading. -/
theorem boot_fallback_ladder (envA envB : SyncEnv) (cause : WakeCause) (d0 : Device) :
    (((bootSync2 envA envB d0).1 = false → cause = WakeCause.timer →
      (bootSync2 envA envB d0).2.gPlannedWakeEpoch > 0 →
      (bootRung1 envA envB cause d0).timeValid = true ∧
      (bootRung1 envA envB cause d0).clockEpoch
        = (bootSync2 envA envB d0).2.gPlannedWakeEpoch ∧
      (bootTimePolicy envA envB cause d0).timeValid = true)) ∧
    ((bootRung1 envA envB cause d0).timeValid = false →
      (bootRung1 envA envB cause d0).gLastSyncEpoch > 0 →
      (bootTimePolicy envA envB cause d0).timeValid = true ∧
      (bootTimePolicy envA envB cause d0).clockEpoch
        = (bootRung1 envA envB cause d0).gLastSyncEpoch) ∧
    (d0.timeValid = false → d0.gPlannedWakeEpoch = 0 → d0.gLastSyncEpoch = 0 →
      syncFails envA → syncFails envB →
      (bootTimePolicy envA envB cause d0).timeValid = false ∧
      ∀ lt, quietNow (bootTimePolicy envA envB cause d0) lt = false) := by
  refine ⟨fun h1 h2 h3 => ?_, fun h1 h2 => ?_, fun h0 hp hl hA hB => ?_⟩
  · have hr1 : bootRung1 envA envB cause d0
        = setSystemTimeFromEpoch (bootSync2 envA envB d0).2.gPlannedWakeEpoch
            "planned-wake" (bootSync2 envA envB d0).2 := by
      unfold bootRung1
      rw [if_pos (by simp [h1, h2, h3])]
    have hset : (bootRung1 envA envB cause d0).timeValid = true ∧
        (bootRung1 envA envB cause d0).clockEpoch
          = (bootSync2 envA envB d0).2.gPlannedWakeEpoch := by
      rw [hr1]
      unfold setSystemTimeFromEpoch
      rw [if_neg (by omega)]
      exact ⟨rfl, rfl⟩
    refine ⟨hset.1, hset.2, ?_⟩
    unfold bootTimePolicy
    rw [if_neg (by simp [hset.1])]
    exact hset.1
  · unfold bootTimePolicy
    rw [if_pos (by simp [h1, h2])]
    unfold setSystemTimeFromEpoch
    rw [if_neg (by omega)]
    exact ⟨rfl, rfl⟩
  · have h1 : (bootSync1 envA d0).timeValid = false ∧
        (bootSync1 envA d0).gPlannedWakeEpoch = 0 ∧
        (bootSync1 envA d0).gLastSyncEpoch = 0 := by
      unfold bootSync1
      split_ifs with hq
      · obtain ⟨-, hv, hpp, hll, -⟩ :=
          ensureTimeSync_of_syncFails envA hA 6000 6000 false true d0
        refine ⟨?_, by rw [hpp, hp], by rw [hll, hl]⟩
        obtain hv | hv := hv
        · rw [hv, h0]
        · exact hv
      · exact ⟨h0, hp, hl⟩
    have h2 : (bootSync2 envA envB d0).1 = false ∧
        (bootSync2 envA envB d0).2.timeValid = false ∧
        (bootSync2 envA envB d0).2.gPlannedWakeEpoch = 0 ∧
        (bootSync2 envA envB d0).2.gLastSyncEpoch = 0 := by
      unfold bootSync2
      obtain ⟨hf, hv, hpp, hll, -⟩ :=
        ensureTimeSync_of_syncFails envB hB 10000 10000 true true (bootSync1 envA d0)
      refine ⟨hf, ?_, by rw [hpp, h1.2.1], by rw [hll, h1.2.2]⟩
      obtain hv | hv := hv
      · rw [hv, h1.1]
      · exact hv
    have h3 : bootRung1 envA envB cause d0 = (bootSync2 envA envB d0).2 := by
      unfold bootRung1
      rw [if_neg (by simp [h2.2.2.1])]
    have h4 : bootTimePolicy envA envB cause d0 = (bootSync2 envA envB d0).2 := by
      unfold bootTimePolicy
      rw [h3, if_neg (by simp [h2.2.2.2])]
    rw [h4]
    exact ⟨h2.2.1, fun lt => by simp [quietNow, h2.2.1]⟩

/-- C2 witness: the three rungs at concrete inputs — (i) timer wake with
a stored planned epoch and unreachable network reconstructs the clock
from it; (ii) a cold boot with only a stale `gLastSyncEpoch` falls back
to it; (iii) with nothing at all the clock stays invalid and the device
is not quiet even inside its window. -/
theorem boot_fallback_ladder_witness :
    ((bootRung1 ⟨false, false, false, 0⟩ ⟨false, false, false, 0⟩ WakeCause.timer
        { defaultDevice with gPlannedWakeEpoch := 1762894980 }).timeValid = true ∧
      (bootRung1 ⟨false, false, false, 0⟩ ⟨false, false, false, 0⟩ WakeCause.timer
        { defaultDevice with gPlannedWakeEpoch := 1762894980 }).clockEpoch
        = (bootSync2 ⟨false, false, false, 0⟩ ⟨false, false, false, 0⟩
            { defaultDevice with gPlannedWakeEpoch := 1762894980 }).2.gPlannedWakeEpoch ∧
      (bootTimePolicy ⟨false, false, false, 0⟩ ⟨false, false, false, 0⟩ WakeCause.timer
        { defaultDevice with gPlannedWakeEpoch := 1762894980 }).timeValid = true) ∧
    ((bootTimePolicy ⟨false, false, false, 0⟩ ⟨false, false, false, 0⟩ WakeCause.cold
        { defaultDevice with gLastSyncEpoch := 1700000000 }).timeValid = true ∧
      (bootTimePolicy ⟨false, false, false, 0⟩ ⟨false, false, false, 0⟩ WakeCause.cold
        { defaultDevice with gLastSyncEpoch := 1700000000 }).clockEpoch
        = (bootRung1 ⟨false, false, false, 0⟩ ⟨false, false, false, 0⟩ WakeCause.cold
            { defaultDevice with gLastSyncEpoch := 1700000000 }).gLastSyncEpoch) ∧
    ((bootTimePolicy ⟨false, false, false, 0⟩ ⟨false, false, false, 0⟩ WakeCause.cold
        defaultDevice).timeValid = false ∧
      quietNow (bootTimePolicy ⟨false, false, false, 0⟩ ⟨false, false, false, 0⟩
        WakeCause.cold defaultDevice) (some ⟨23, 0, 0⟩) = false) :=
  ⟨(boot_fallback_ladder ⟨false, false, false, 0⟩ ⟨false, false, false, 0⟩ WakeCause.timer
      { defaultDevice with gPlannedWakeEpoch := 1762894980 }).1 rfl rfl (by decide),
   (boot_fallback_ladder ⟨false, false, false, 0⟩ ⟨false, false, false, 0⟩ WakeCause.cold
      { defaultDevice with gLastSyncEpoch := 1700000000 }).2.1 rfl (by decide),
   ⟨((boot_fallback_ladder ⟨false, false, false, 0⟩ ⟨false, false, false, 0⟩ WakeCause.cold
        defaultDevice).2.2 rfl rfl rfl (by decide) (by decide)).1,
    ((boot_fallback_ladder ⟨false, false, false, 0⟩ ⟨false, false, false, 0⟩ WakeCause.cold
        defaultDevice).2.2 rfl rfl rfl (by decide) (by decide)).2 (some ⟨23, 0, 0⟩)⟩⟩

/-! ## C6 — planned wake epoch on night-sleep entry -/

/-- C6: on every night-sleep entry, after the best-effort sync: with
valid time the armed timer is the computed (floored) duration and
`gPlannedWakeEpoch` is the current epoch plus that duration in seconds;
with invalid time the armed timer is the fixed 30-minute nap and
`gPlannedWakeEpoch` is 0. -/
theorem night_sleep_planned_wake (env : SyncEnv) (lt : Option CivilTime)
    (d : Device) (ps : PeriphState) :
    ((nightSyncState env d).timeValid = true →
      (enterDeepSleep_NightTimer env lt d ps).2.timerArmedUs
        = some (nightSleepPlan true (nightSyncState env d).clockEpoch lt
            (nightSyncState env d).QUIET_END_H).1 ∧
      (enterDeepSleep_NightTimer env lt d ps).1.gPlannedWakeEpoch
        = (nightSyncState env d).clockEpoch
          + (((nightSleepPlan true (nightSyncState env d).clockEpoch lt
              (nightSyncState env d).QUIET_END_H).1 / 1000000 : Nat) : Int)) ∧
    ((nightSyncState env d).timeValid = false →
      (enterDeepSleep_NightTimer env lt d ps).2.timerArmedUs
        = some (30 * 60 * 1000000) ∧
      (enterDeepSleep_NightTimer env lt d ps).1.gPlannedWakeEpoch = 0) := by
  constructor
  · intro h
    constructor
    · simp [enterDeepSleep_NightTimer, h]
    · simp only [enterDeepSleep_NightTimer, h]
      exact nightSleepPlan_valid_snd _ lt _
  · intro h
    constructor
    · simp [enterDeepSleep_NightTimer, h, nightSleepPlan]
    · simp [enterDeepSleep_NightTimer, h, nightSleepPlan]

/-- C6 witness: a valid-clock night entry at 23:10 (end hour 7) arms
7h50m and plans `now + 28200`; an invalid-clock entry whose forced sync
also fails arms the 30-minute nap and plans 0. -/
theorem night_sleep_planned_wake_witness :
    ((enterDeepSleep_NightTimer ⟨false, false, false, 0⟩ (some ⟨23, 10, 0⟩)
        { defaultDevice with timeValid := true, clockEpoch := 1000000 }
        ⟨true, true, true, false, true, false, false, none⟩).2.timerArmedUs
      = some 28200000000 ∧
      (enterDeepSleep_NightTimer ⟨false, false, false, 0⟩ (some ⟨23, 10, 0⟩)
        { defaultDevice with timeValid := true, clockEpoch := 1000000 }
        ⟨true, true, true, false, true, false, false, none⟩).1.gPlannedWakeEpoch
      = 1028200) ∧
    ((enterDeepSleep_NightTimer ⟨false, false, false, 0⟩ none defaultDevice
        ⟨true, true, true, false, true, false, false, none⟩).2.timerArmedUs
      = some (30 * 60 * 1000000) ∧
      (enterDeepSleep_NightTimer ⟨false, false, false, 0⟩ none defaultDevice
        ⟨true, true, true, false, true, false, false, none⟩).1.gPlannedWakeEpoch = 0) := by
  constructor
  · obtain ⟨a, b⟩ := (night_sleep_planned_wake ⟨false, false, false, 0⟩ (some ⟨23, 10, 0⟩)
      { defaultDevice with timeValid := true, clockEpoch := 1000000 }
      ⟨true, true, true, false, true, false, false, none⟩).1 rfl
    exact ⟨a.trans (by decide), b.trans (by decide)⟩
  · exact (night_sleep_planned_wake ⟨false, false, false, 0⟩ none defaultDevice
      ⟨true, true, true, false, true, false, false, none⟩).2 rfl

/-! ## C8 — helper lemmas on the admin applier -/

/-- The direct clock setters never touch the persisted store. -/
lemma setClockFromEpoch_prefs (e : Int) (d : Device) :
    (setClockFromEpoch e d).2.prefs = d.prefs := by
  unfold setClockFromEpoch
  split_ifs <;> rfl

lemma setClockFromString_prefs (s : String) (d : Device) :
    (setClockFromString s d).2.prefs = d.prefs := by
  unfold setClockFromString
  cases parseCivilString s with
  | none => rfl
  | some t =>
    obtain ⟨y, mo, dd, hh, mi, se⟩ := t
    dsimp only
    split_ifs
    · rfl
    · exact setClockFromEpoch_prefs _ _

/-- The device part of `applyKV` does not depend on the accumulated
`AdminResult` — a prior per-key error cannot change how later keys are
applied. -/
lemma applyKV_fst_indep (k v : String) (d : Device) (ar ar' : AdminResult) :
    (applyKV k v d ar).1 = (applyKV k v d ar').1 := by
  unfold applyKV
  dsimp only
  simp only [apply_ite Prod.fst]

/-- `applyKV` itself never writes the persisted store. -/
lemma applyKV_prefs (k v : String) (d : Device) (ar : AdminResult) :
    (applyKV k v d ar).1.prefs = d.prefs := by
  unfold applyKV
  dsimp only
  simp only [apply_ite Prod.fst, apply_ite Device.prefs,
    setClockFromEpoch_prefs, setClockFromString_prefs, ite_self]

/-- Line-level version of `applyKV_fst_indep`. -/
lemma processLine_fst_indep (line : String) (d : Device) (ar ar' : AdminResult) :
    (processLine (d, ar) line).1 = (processLine (d, ar') line).1 := by
  unfold processLine
  dsimp only
  split_ifs with h
  · rfl
  · rcases hb : breakAtFirst '=' (trimStr line).data with _ | ⟨k, v⟩
    · simp [hb]
    · simp only [hb]
      exact applyKV_fst_indep _ _ _ _ _

lemma processLine_prefs (line : String) (d : Device) (ar : AdminResult) :
    (processLine (d, ar) line).1.prefs = d.prefs := by
  unfold processLine
  dsimp only
  split_ifs with h
  · rfl
  · rcases hb : breakAtFirst '=' (trimStr line).data with _ | ⟨k, v⟩
    · simp [hb]
    · simp only [hb]
      exact applyKV_prefs _ _ _ _

/-- Error accumulation never aborts: the device result of the whole
segment loop is independent of the incoming `AdminResult`. -/
lemma processLines_fst_indep (lines : List String) :
    ∀ (d : Device) (ar ar' : AdminResult),
      (processLines lines d ar).1 = (processLines lines d ar').1 := by
  induction lines with
  | nil => intro d ar ar'; rfl
  | cons l ls ih =>
    intro d ar ar'
    show (processLines ls (processLine (d, ar) l).1 (processLine (d, ar) l).2).1
        = (processLines ls (processLine (d, ar') l).1 (processLine (d, ar') l).2).1
    rw [ih (processLine (d, ar) l).1 (processLine (d, ar) l).2 (processLine (d, ar') l).2,
        processLine_fst_indep l d ar ar']

/-- No key is persisted while the segment loop is still running. -/
lemma processLines_prefs (lines : List String) :
    ∀ (d : Device) (ar : AdminResult), (processLines lines d ar).1.prefs = d.prefs := by
  induction lines with
  | nil => intro d ar; rfl
  | cons l ls ih =>
    intro d ar
    show (processLines ls (processLine (d, ar) l).1 (processLine (d, ar) l).2).1.prefs = d.prefs
    rw [ih (processLine (d, ar) l).1 (processLine (d, ar) l).2, processLine_prefs l d ar]

/-- `constrain(x, 0, 23)` lands in 0..23. -/
lemma constrain_0_23_le (x : Int) : (constrain x 0 23).toNat ≤ 23 := by
  unfold constrain
  split_ifs <;> omega

/-- An unknown key leaves the device untouched and accumulates a per-key
error. -/
lemma applyKV_unknown (k v : String) (d : Device) (ar : AdminResult)
    (h : toLowerStr k ∉ knownKeys) :
    applyKV k v d ar = (d, { ar with ok := false, msg := "unk key: " ++ toLowerStr k }) := by
  simp only [knownKeys, List.mem_cons, List.not_mem_nil, or_false, not_or] at h
  obtain ⟨h1, h2, h3, h4, h5, h6, h7, h8, h9, h10, h11, h12, h13, h14, h15, h16, h17⟩ := h
  unfold applyKV
  dsimp only
  rw [if_neg h1, if_neg h2, if_neg h3, if_neg h4, if_neg h5, if_neg h6, if_neg h7,
      if_neg h8, if_neg h9, if_neg h10, if_neg h11, if_neg h12, if_neg h13, if_neg h14,
      if_neg h15, if_neg h16, if_neg h17]

/-- A `code` value of the wrong length leaves the device untouched and
accumulates a per-key error. -/
lemma applyKV_code_len (v : String) (d : Device) (ar : AdminResult)
    (h : (trimStr v).length ≠ 4) :
    applyKV "code" v d ar = (d, { ar with ok := false, msg := "code len" }) := by
  unfold applyKV
  dsimp only
  rw [if_neg (by decide), if_neg (by decide), if_neg (by decide), if_neg (by decide),
      if_neg (by decide), if_pos (by decide), if_neg h]

/-- `qstart` clamps and reports success. -/
lemma applyKV_qstart (v : String) (d : Device) (ar : AdminResult) :
    applyKV "qstart" v d ar
      = ({ d with QUIET_START_H := (constrain (atol (trimStr v)) 0 23).toNat },
         { ar with msg := "qstart" }) := by
  unfold applyKV
  dsimp only
  rw [if_neg (by decide), if_neg (by decide), if_neg (by decide), if_neg (by decide),
      if_neg (by decide), if_neg (by decide), if_neg (by decide), if_pos (by decide)]

/-- `qend` clamps and reports success. -/
lemma applyKV_qend (v : String) (d : Device) (ar : AdminResult) :
    applyKV "qend" v d ar
      = ({ d with QUIET_END_H := (constrain (atol (trimStr v)) 0 23).toNat },
         { ar with msg := "qend" }) := by
  unfold applyKV
  dsimp only
  rw [if_neg (by decide), if_neg (by decide), if_neg (by decide), if_neg (by decide),
      if_neg (by decide), if_neg (by decide), if_neg (by decide), if_neg (by decide),
      if_pos (by decide)]

/-! ## C8 — admin payload error handling -/

/-- C8, counterexample: the out-of-range value `qstart=99` does NOT
produce a per-key error — `applyKV` clamps it to 23 and reports success
(`ok` stays true, message `"qstart"`), refuting "each unknown key or
out-of-range value (e.g., qstart or qend outside 0..23 ...) produces a
per-key error". -/
theorem qstart_out_of_range_no_error_cex :
    (applyKV "qstart" "99" defaultDevice ⟨true, "saved"⟩).2.ok = true ∧
    (applyKV "qstart" "99" defaultDevice ⟨true, "saved"⟩).2.msg = "qstart" ∧
    (applyKV "qstart" "99" defaultDevice ⟨true, "saved"⟩).1.QUIET_START_H = 23 := by
  decide

/-- C8, amended: unknown keys and wrong-length `code` values produce a
per-key error accumulated into the result without touching the device;
out-of-range `qstart`/`qend` values are CLAMPED into 0..23 and reported
as success; an error never aborts processing of the remaining key=value
items (the device outcome of the segment loop is independent of the
accumulated result, and each line hands the loop on to the next); and
keys are persisted as one batch at the end (never during the loop, and
the final store equals the final settings). -/
theorem admin_kv_error_accumulation :
    (∀ (k v : String) (d : Device) (ar : AdminResult), toLowerStr k ∉ knownKeys →
      applyKV k v d ar = (d, { ar with ok := false, msg := "unk key: " ++ toLowerStr k })) ∧
    (∀ (v : String) (d : Device) (ar : AdminResult), (trimStr v).length ≠ 4 →
      applyKV "code" v d ar = (d, { ar with ok := false, msg := "code len" })) ∧
    (∀ (v : String) (d : Device) (ar : AdminResult),
      (applyKV "qstart" v d ar).2.ok = ar.ok ∧
      (applyKV "qstart" v d ar).1.QUIET_START_H ≤ 23) ∧
    (∀ (v : String) (d : Device) (ar : AdminResult),
      (applyKV "qend" v d ar).2.ok = ar.ok ∧
      (applyKV "qend" v d ar).1.QUIET_END_H ≤ 23) ∧
    (∀ (lines : List String) (d : Device) (ar ar' : AdminResult),
      (processLines lines d ar).1 = (processLines lines d ar').1) ∧
    (∀ (lines : List String) (d : Device) (ar : AdminResult),
      (processLines lines d ar).1.prefs = d.prefs) ∧
    (∀ (txt : String) (d : Device),
      (applyConfigText txt d).1.prefs = some (prefsSnapshot (applyConfigText txt d).1)) := by
  refine ⟨applyKV_unknown, applyKV_code_len, ?_, ?_, processLines_fst_indep,
    processLines_prefs, fun txt d => rfl⟩
  · intro v d ar
    rw [applyKV_qstart]
    exact ⟨rfl, constrain_0_23_le _⟩
  · intro v d ar
    rw [applyKV_qend]
    exact ⟨rfl, constrain_0_23_le _⟩

/-- C8 witness: an unknown key and a wrong-length code at concrete
inputs, both leaving the device untouched with a per-key error. -/
theorem admin_kv_error_accumulation_witness :
    applyKV "frobnicate" "1" defaultDevice ⟨true, "saved"⟩
      = (defaultDevice, ⟨false, "unk key: frobnicate"⟩) ∧
    applyKV "code" "123" defaultDevice ⟨true, "saved"⟩
      = (defaultDevice, ⟨false, "code len"⟩) :=
  ⟨admin_kv_error_accumulation.1 "frobnicate" "1" defaultDevice ⟨true, "saved"⟩ (by decide),
   admin_kv_error_accumulation.2.1 "123" defaultDevice ⟨true, "saved"⟩ (by decide)⟩

/-! ## C9 — admin payloads short-circuit recognition handling -/

/-- C9: when the decoded NDEF payload is an admin configuration payload
(a successful TEXT read whose text contains `'='`), the scan-handling
block applies the configuration and leaves the interaction mode exactly
as it was — normal recognition handling is skipped entirely. -/
theorem admin_payload_preserves_mode (nowMs : Nat) (uid : List Nat) (len : Nat)
    (nr : NdefResult) (d : Device) (ls : LoopState)
    (h1 : nr.ok = true) (h2 : nr.isText = true)
    (h3 : containsChar nr.text '=' = true) :
    (tagScanHandle nowMs uid len nr d ls).2.mode = ls.mode ∧
    (tagScanHandle nowMs uid len nr d ls).1 = (applyConfigText nr.text d).1 := by
  unfold tagScanHandle
  dsimp only
  rw [if_pos (by simp [h1, h2, h3])]
  exact ⟨rfl, rfl⟩

/-- C9 witness: an admin tag (`"qend=5"`) scanned with a 4-byte UID on a
device whose empty allowlist would otherwise recognise it: the mode
stays `MODE_CODE` and the configuration is applied. -/
theorem admin_payload_preserves_mode_witness :
    (tagScanHandle 100 [4, 170, 187, 204] 4 ⟨true, true, false, "qend=5"⟩ defaultDevice
      ⟨Mode.MODE_CODE, 0, 0, 0, false, "", 0, false, ""⟩).2.mode = Mode.MODE_CODE ∧
    (tagScanHandle 100 [4, 170, 187, 204] 4 ⟨true, true, false, "qend=5"⟩ defaultDevice
      ⟨Mode.MODE_CODE, 0, 0, 0, false, "", 0, false, ""⟩).1
      = (applyConfigText "qend=5" defaultDevice).1 :=
  admin_payload_preserves_mode 100 [4, 170, 187, 204] 4 ⟨true, true, false, "qend=5"⟩
    defaultDevice ⟨Mode.MODE_CODE, 0, 0, 0, false, "", 0, false, ""⟩ rfl rfl (by decide)

end TBBNB
